import Mathlib

/-!
Shallow embedding of `src/pdf_generator.py` (class `PDFGenerator` and `main`).

The program reads a CSV file, validates that the columns `Topic` and `Pages`
are present, then for each row draws `1 + max(Pages - 1, 0)` pages (one
unconditional `add_page` followed by `for _ in range(pages - 1)` further
calls), and finally writes the document to the output path.  Each page
consists of a header cell with the topic, horizontal rule lines drawn by
`for y in range(20, 298, self.line_spacing)`, and a footer cell repeating
the topic.

Errors are modelled explicitly: the three guarded conditions (missing input
file, CSV parse failure, missing required columns) print a message and call
`sys.exit(1)`; everything else (a `Pages` value that `int()` cannot convert,
a zero `line_spacing` making `range` raise `ValueError`, a failing output
write) raises an uncaught Python exception, since neither `generate` nor
`main` contains a `try/except` around those operations.
-/

/-- Number of elements of the Python builtin `range(start, stop, step)` for a
nonzero `step`, following CPython: for a positive step the length is
`(stop - start - 1) // step + 1` when `start < stop` and `0` otherwise, and
symmetrically for a negative step.  A zero `step` makes `range` raise
`ValueError`; callers guard that case, and this function returns `0` there. -/
def rangeLen (start stop step : Int) : Nat :=
  if 0 < step then
    (if start < stop then ((stop - start - 1) / step + 1).toNat else 0)
  else if step < 0 then
    (if stop < start then ((start - stop - 1) / (-step) + 1).toNat else 0)
  else 0

/-- The Python builtin `range(start, stop, step)` as a list of integers:
element `i` is `start + step * i`. -/
def pyRange (start stop step : Int) : List Int :=
  (List.range (rangeLen start stop step)).map (fun i => start + step * Int.ofNat i)

/-- Configuration of `PDFGenerator.__init__`: `line_spacing` (mm between the
horizontal rule lines, CLI flag `--lines`) and `font_size` (header font size,
CLI flag `--fontsize`).  The paths are passed separately. -/
structure Config where
  line_spacing : Int
  font_size : Int
deriving Repr, DecidableEq

/-- One emitted PDF page, as produced by `PDFGenerator.add_page`: the header
cell text and font size, the `y` coordinates of the horizontal rule lines
(each drawn from `x = 10` to `x = 200`), and the footer cell text. -/
structure Page where
  header : String
  fontSize : Int
  lineYs : List Int
  footer : String
deriving Repr, DecidableEq

/-- The value found in the `Pages` cell of a row after `pd.read_csv`:
an integer, a string that `int()` cannot convert, or `NaN` (an empty cell). -/
inductive PagesCell where
  | intVal : Int → PagesCell
  | nonIntStr : String → PagesCell
  | nan : PagesCell
deriving Repr, DecidableEq

/-- One data row of the parsed CSV: the `Topic` cell already passed through
`str(...)` (which never fails), and the raw `Pages` cell. -/
structure Row where
  topic : String
  pagesCell : PagesCell
deriving Repr, DecidableEq

/-- Python `int(x)` applied to a `Pages` cell: integers pass through, a
non-convertible string raises `ValueError`, and `NaN` (pandas reading of an
empty cell) raises `ValueError: cannot convert float NaN to integer`. -/
def intOfCell : PagesCell → Except String Int
  | .intVal n => .ok n
  | .nonIntStr s => .error ("ValueError: invalid literal for int() with base 10: " ++ s)
  | .nan => .error "ValueError: cannot convert float NaN to integer"

/-- The page drawn by `PDFGenerator.add_page` for a given topic when the rule
line loop `for y in range(20, 298, self.line_spacing)` does not raise: header
cell with the topic at `font_size`, one rule line per element of the range,
footer cell repeating the topic. -/
def mkPage (cfg : Config) (topic : String) : Page :=
  { header := topic
    fontSize := cfg.font_size
    lineYs := pyRange 20 298 cfg.line_spacing
    footer := topic }

/-- `PDFGenerator.add_page`: `self.pdf.add_page()` always succeeds and the
header is always drawn, but with `line_spacing = 0` the rule line loop raises
`ValueError: range() arg 3 must not be zero` (so the page is started but left
unfinished); otherwise the full page is produced. -/
def add_page (cfg : Config) (topic : String) : Except String Page :=
  if cfg.line_spacing = 0 then
    .error "ValueError: range() arg 3 must not be zero"
  else
    .ok (mkPage cfg topic)

/-- Result of running `PDFGenerator.generate` (as invoked by `main`):
`exited msg` is a printed error message followed by `sys.exit(1)` (no output
file written); `wrote pages msg` is a document with the given page list
written to the output path and the success message printed; `raised exn n`
is an uncaught Python exception with `n` pages started in the in-memory
document at the moment of the exception (no output file written). -/
inductive RunResult where
  | exited : String → RunResult
  | wrote : List Page → String → RunResult
  | raised : String → Nat → RunResult
deriving Repr, DecidableEq

/-- The row loop of `PDFGenerator.generate`: for each row, evaluate
`int(row.get("Pages", 1))` (the default `1` is unreachable because the
`Pages` column was validated to exist, so the cell itself is always
consulted), then call `add_page` once unconditionally and `pages - 1` more
times via `range(pages - 1)`.  An `int()` failure raises before any page of
that row is started; an `add_page` failure (zero spacing) raises after the
first page of that row was started.  The repeated `add_page` calls of one
row are deterministic, so they are modelled by replicating the first page. -/
def processRows (cfg : Config) : List Row → List Page → Except (String × Nat) (List Page)
  | [], acc => .ok acc
  | r :: rest, acc =>
    match intOfCell r.pagesCell with
    | .error e => .error (e, acc.length)
    | .ok pages =>
      match add_page cfg r.topic with
      | .error e => .error (e, acc.length + 1)
      | .ok p => processRows cfg rest (acc ++ (p :: List.replicate (pages - 1).toNat p))

/-- The outcome of `pd.read_csv` together with the `os.path.isfile` guard:
the input path does not exist, the CSV fails to parse, or a table with the
given column names and data rows was produced. -/
inductive CsvInput where
  | notFound : CsvInput
  | parseError : String → CsvInput
  | table : List String → List Row → CsvInput
deriving Repr, DecidableEq

/-- `PDFGenerator.generate`: guard the input path (`print` + `sys.exit(1)`),
guard the CSV parse, guard that `{"Topic", "Pages"}` is a subset of the
columns, run the row loop, then `self.pdf.output(self.output_path)` —
modelled by the `writeOk` flag: a failing write raises an uncaught exception
(there is no `try/except` around it), a successful write prints the success
message. -/
def generate (input : CsvInput) (cfg : Config) (output_path : String)
    (writeOk : Bool) : RunResult :=
  match input with
  | .notFound => .exited "Error: CSV file not found"
  | .parseError e => .exited ("Error reading CSV: " ++ e)
  | .table cols rows =>
    if "Topic" ∈ cols ∧ "Pages" ∈ cols then
      match processRows cfg rows [] with
      | .error (e, n) => .raised e n
      | .ok pgs =>
        if writeOk then
          .wrote pgs ("PDF generated successfully: " ++ output_path)
        else
          .raised "IOError: cannot write output file" pgs.length
    else
      .exited "Error: CSV must contain columns: Topic, Pages"

/-- The number of `add_page` calls the row loop performs for a row whose
`Pages` cell converted to the integer `pages`: one unconditional call plus
`max(pages - 1, 0)` further calls. -/
def rowPageCount (pages : Int) : Nat := (pages - 1).toNat + 1

/-- The integer stored in a `Pages` cell, for cells that hold an integer
(used only in theorem statements under that hypothesis). -/
def cellInt : PagesCell → Int
  | .intVal n => n
  | .nonIntStr _ => 0
  | .nan => 0

/-- Specification-side description of the full page list of a successful run:
each row contributes `rowPageCount` copies of its page, in input row order. -/
def expectedPages (cfg : Config) : List Row → List Page
  | [] => []
  | r :: rest =>
      List.replicate (rowPageCount (cellInt r.pagesCell)) (mkPage cfg r.topic)
        ++ expectedPages cfg rest

/-- Whether a `Pages` cell holds an integer value (so that `int(...)` on it
succeeds). -/
def isIntCell : PagesCell → Bool
  | .intVal _ => true
  | .nonIntStr _ => false
  | .nan => false

theorem isIntCell_exists {c : PagesCell} (h : isIntCell c = true) :
    ∃ n, c = PagesCell.intVal n := by
  cases c with
  | intVal n => exact ⟨n, rfl⟩
  | nonIntStr s => simp [isIntCell] at h
  | nan => simp [isIntCell] at h

/-- The row loop commutes with list append: processing `pre ++ ys` first
accumulates the pages of `pre`, provided every row of `pre` has an integer
`Pages` cell and the spacing is nonzero. -/
theorem processRows_append_ok (cfg : Config) (hs : cfg.line_spacing ≠ 0)
    (pre : List Row) (hpre : ∀ r ∈ pre, isIntCell r.pagesCell = true) :
    ∀ (acc : List Page) (ys : List Row),
      processRows cfg (pre ++ ys) acc
        = processRows cfg ys (acc ++ expectedPages cfg pre) := by
  induction pre with
  | nil => intro acc ys; simp [expectedPages]
  | cons r rest ih =>
    intro acc ys
    obtain ⟨n, hn⟩ := isIntCell_exists (hpre r (by simp))
    have hrest : ∀ x ∈ rest, isIntCell x.pagesCell = true :=
      fun x hx => hpre x (by simp [hx])
    simp only [List.cons_append, processRows, hn, intOfCell, add_page, if_neg hs]
    rw [show rest.append ys = rest ++ ys from rfl, ih hrest]
    simp [expectedPages, hn, cellInt, rowPageCount, List.replicate_succ,
      List.append_assoc]

/-- A row list of integer `Pages` cells processes without an exception,
producing exactly the expected page list. -/
theorem processRows_ok (cfg : Config) (hs : cfg.line_spacing ≠ 0)
    (rows : List Row) (hrows : ∀ r ∈ rows, isIntCell r.pagesCell = true)
    (acc : List Page) :
    processRows cfg rows acc = .ok (acc ++ expectedPages cfg rows) := by
  have h := processRows_append_ok cfg hs rows hrows acc []
  simpa [processRows] using h

/-- The expected page list has one page per unit of `max(Pages, 1)` summed
over the rows. -/
theorem expectedPages_length (cfg : Config) (rows : List Row) :
    (expectedPages cfg rows).length
      = (rows.map (fun r => (max (cellInt r.pagesCell) 1).toNat)).sum := by
  induction rows with
  | nil => simp [expectedPages]
  | cons r rest ih =>
    simp only [expectedPages, List.length_append, List.length_replicate, ih,
      List.map_cons, List.sum_cons, rowPageCount]
    omega

/-- Every expected page is the page of one of the input rows. -/
theorem expectedPages_mem (cfg : Config) (rows : List Row) (p : Page)
    (hp : p ∈ expectedPages cfg rows) : ∃ r ∈ rows, p = mkPage cfg r.topic := by
  induction rows with
  | nil => simp [expectedPages] at hp
  | cons r rest ih =>
    simp only [expectedPages, List.mem_append] at hp
    rcases hp with h | h
    · exact ⟨r, by simp, List.eq_of_mem_replicate h⟩
    · obtain ⟨x, hx, hpx⟩ := ih h
      exact ⟨x, by simp [hx], hpx⟩

/-- The rule line list has exactly `rangeLen` elements. -/
theorem pyRange_length (a b s : Int) : (pyRange a b s).length = rangeLen a b s := by
  simp [pyRange]

/-- With a negative spacing, the rule line loop `range(20, 298, spacing)` is
empty: Python range with a negative step and `start < stop` yields nothing. -/
theorem pyRange_neg_empty (s : Int) (hs : s < 0) : pyRange 20 298 s = [] := by
  unfold pyRange rangeLen
  rw [if_neg (by omega), if_pos hs, if_neg (by norm_num)]
  simp

/-- C1: for a valid input (required columns present, every `Pages` cell an
integer) and a run that reaches the output write, each row with `Pages = p`
contributes `max(p, 1)` pages, and the total page count of the written
document is the sum of `max(Pages, 1)` over the rows. -/
theorem c1_total_pages (cols : List String) (rows : List Row) (cfg : Config)
    (path : String)
    (hcols : "Topic" ∈ cols ∧ "Pages" ∈ cols)
    (hrows : ∀ r ∈ rows, isIntCell r.pagesCell = true)
    (hs : cfg.line_spacing ≠ 0) :
    ∃ pgs : List Page,
      generate (.table cols rows) cfg path true
          = .wrote pgs ("PDF generated successfully: " ++ path)
        ∧ pgs.length
            = (rows.map (fun r => (max (cellInt r.pagesCell) 1).toNat)).sum := by
  refine ⟨expectedPages cfg rows, ?_, expectedPages_length cfg rows⟩
  simp [generate, hcols.1, hcols.2, processRows_ok cfg hs rows hrows []]

theorem c1_total_pages_witness :
    ∃ pgs : List Page,
      generate (.table ["Topic", "Pages"]
            [⟨"Math", .intVal 2⟩, ⟨"History", .intVal 0⟩, ⟨"Art", .intVal (-3)⟩])
          ⟨10, 24⟩ "output.pdf" true
          = .wrote pgs ("PDF generated successfully: " ++ "output.pdf")
        ∧ pgs.length
            = ([(⟨"Math", .intVal 2⟩ : Row), ⟨"History", .intVal 0⟩,
                ⟨"Art", .intVal (-3)⟩].map
                  (fun r => (max (cellInt r.pagesCell) 1).toNat)).sum :=
  c1_total_pages _ _ _ _ (by decide) (by decide) (by decide)

/-- C2 counterexample: a row whose `Pages` cell is missing (`NaN`) does not
default to 1 and does not let processing continue — `int(...)` raises an
uncaught `ValueError` before any page of that row is started, so the run with
a later valid row aborts with zero pages and never writes output. -/
theorem c2_counterexample :
    generate (.table ["Topic", "Pages"] [⟨"A", .nan⟩, ⟨"B", .intVal 1⟩])
        ⟨10, 24⟩ "out.pdf" true
      = .raised "ValueError: cannot convert float NaN to integer" 0 := by decide

/-- C2 amended: the per-row default of 1 never applies, because the `Pages`
column is validated to exist before the loop, so `row.get("Pages", 1)` always
finds the cell; a missing (`NaN`) or non-coercible `Pages` value makes
`int(...)` raise an uncaught `ValueError` at that row, aborting the run with
only the earlier rows' pages in memory and no output written. -/
theorem c2_amended_raises (cols : List String) (cfg : Config) (path : String)
    (w : Bool) (pre : List Row) (bad : Row) (rest : List Row) (e : String)
    (hcols : "Topic" ∈ cols ∧ "Pages" ∈ cols)
    (hpre : ∀ r ∈ pre, isIntCell r.pagesCell = true)
    (hs : cfg.line_spacing ≠ 0)
    (hbad : intOfCell bad.pagesCell = .error e) :
    generate (.table cols (pre ++ bad :: rest)) cfg path w
      = .raised e (expectedPages cfg pre).length := by
  simp [generate, hcols.1, hcols.2,
    processRows_append_ok cfg hs pre hpre [] (bad :: rest), processRows, hbad]

theorem c2_amended_raises_witness :
    generate (.table ["Topic", "Pages"]
          ([⟨"A", .intVal 2⟩] ++ (⟨"B", .nonIntStr "many"⟩ : Row) :: [⟨"C", .intVal 1⟩]))
        ⟨10, 24⟩ "out.pdf" true
      = .raised ("ValueError: invalid literal for int() with base 10: " ++ "many")
          (expectedPages ⟨10, 24⟩ [⟨"A", .intVal 2⟩]).length :=
  c2_amended_raises _ _ _ _ _ _ _ _ (by decide) (by decide) (by decide) rfl

/-- C3 counterexample: a configuration with `line_spacing = -5 ≤ 0` is not
rejected: the run emits a page (with zero rule lines, since
`range(20, 298, -5)` is empty) and writes the document successfully. -/
theorem c3_counterexample :
    generate (.table ["Topic", "Pages"] [⟨"A", .intVal 1⟩]) ⟨-5, 24⟩
        "out.pdf" true
      = .wrote [mkPage ⟨-5, 24⟩ "A"] "PDF generated successfully: out.pdf"
    ∧ (mkPage ⟨-5, 24⟩ "A").lineYs = [] := by decide

/-- C3 amended: no spacing validation exists. A negative spacing is silently
accepted: every page is emitted with zero rule lines and the document is
written. A zero spacing is not rejected before drawing either: the first
`add_page` call raises an uncaught `ValueError` from `range`, after that
page has already been started in the document, and no output is written. -/
theorem c3_amended_no_rejection (cols : List String) (r : Row)
    (rows : List Row) (path : String) (s fs : Int)
    (hcols : "Topic" ∈ cols ∧ "Pages" ∈ cols)
    (hrows : ∀ x ∈ r :: rows, isIntCell x.pagesCell = true) :
    (s < 0 →
      generate (.table cols (r :: rows)) ⟨s, fs⟩ path true
          = .wrote (expectedPages ⟨s, fs⟩ (r :: rows))
              ("PDF generated successfully: " ++ path)
        ∧ ∀ p ∈ expectedPages ⟨s, fs⟩ (r :: rows), p.lineYs = [])
    ∧ generate (.table cols (r :: rows)) ⟨0, fs⟩ path true
        = .raised "ValueError: range() arg 3 must not be zero" 1 := by
  constructor
  · intro hneg
    have hz : (⟨s, fs⟩ : Config).line_spacing ≠ 0 := by show s ≠ 0; omega
    constructor
    · simp [generate, hcols.1, hcols.2,
        processRows_ok ⟨s, fs⟩ hz (r :: rows) hrows []]
    · intro p hp
      obtain ⟨x, _, hpx⟩ := expectedPages_mem ⟨s, fs⟩ (r :: rows) p hp
      rw [hpx]
      exact pyRange_neg_empty s hneg
  · obtain ⟨n, hn⟩ := isIntCell_exists (hrows r (by simp))
    simp [generate, hcols.1, hcols.2, processRows, hn, intOfCell, add_page]

theorem c3_amended_no_rejection_witness :
    (generate (.table ["Topic", "Pages"] [⟨"A", .intVal 2⟩]) ⟨-5, 24⟩
          "out.pdf" true
        = .wrote (expectedPages ⟨-5, 24⟩ [⟨"A", .intVal 2⟩])
            ("PDF generated successfully: " ++ "out.pdf")
      ∧ ∀ p ∈ expectedPages ⟨-5, 24⟩ [⟨"A", .intVal 2⟩], p.lineYs = [])
    ∧ generate (.table ["Topic", "Pages"] [⟨"A", .intVal 2⟩]) ⟨0, 24⟩
        "out.pdf" true
        = .raised "ValueError: range() arg 3 must not be zero" 1 :=
  ⟨(c3_amended_no_rejection _ _ _ _ (-5) 24 (by decide) (by decide)).1 (by decide),
   (c3_amended_no_rejection _ _ _ _ (-5) 24 (by decide) (by decide)).2⟩

/-- C4 counterexample: with `line_spacing = 50` a page carries 6 rule lines,
not `floor((298 - 20) / 50) = 5`: `range(20, 298, 50)` has
`ceil((298 - 20) / 50) = 6` elements (20, 70, 120, 170, 220, 270). -/
theorem c4_counterexample :
    (mkPage ⟨50, 24⟩ "Topic").lineYs.length ≠ 5
    ∧ (mkPage ⟨50, 24⟩ "Topic").lineYs.length = 6
    ∧ (mkPage ⟨50, 24⟩ "Topic").lineYs = [20, 70, 120, 170, 220, 270] := by
  decide

/-- C4 amended: for every positive spacing `s`, each emitted page carries
exactly `ceil((298 - 20) / s)` rule lines (not `floor`): the last line drawn
may lie strictly below `298 - s`. -/
theorem c4_lines_per_page (cfg : Config) (t : String)
    (hs : 0 < cfg.line_spacing) :
    add_page cfg t = .ok (mkPage cfg t)
    ∧ (mkPage cfg t).lineYs.length
        = ((298 - 20 + cfg.line_spacing - 1) / cfg.line_spacing).toNat := by
  constructor
  · rw [add_page, if_neg (by omega)]
  · show (pyRange 20 298 cfg.line_spacing).length = _
    rw [pyRange_length]
    unfold rangeLen
    rw [if_pos hs, if_pos (by norm_num : (20 : Int) < 298)]
    have h1 : (298 : Int) - 20 + cfg.line_spacing - 1
        = (298 - 20 - 1) + 1 * cfg.line_spacing := by ring
    rw [h1, Int.add_mul_ediv_right _ _ (by omega : cfg.line_spacing ≠ 0)]

theorem c4_lines_per_page_witness :
    add_page ⟨50, 24⟩ "Topic" = .ok (mkPage ⟨50, 24⟩ "Topic")
    ∧ (mkPage ⟨50, 24⟩ "Topic").lineYs.length
        = ((298 - 20 + 50 - 1) / 50 : Int).toNat :=
  c4_lines_per_page ⟨50, 24⟩ "Topic" (by decide)

/-- C5: pages are emitted in input row order — the written page list is the
concatenation, over the rows in order, of `max(Pages, 1)` copies of that
row's page, and every emitted page carries its row's topic as both header
and footer text. -/
theorem c5_row_order (cols : List String) (rows : List Row) (cfg : Config)
    (path : String)
    (hcols : "Topic" ∈ cols ∧ "Pages" ∈ cols)
    (hrows : ∀ r ∈ rows, isIntCell r.pagesCell = true)
    (hs : cfg.line_spacing ≠ 0) :
    generate (.table cols rows) cfg path true
        = .wrote (expectedPages cfg rows)
            ("PDF generated successfully: " ++ path)
    ∧ ∀ p ∈ expectedPages cfg rows,
        ∃ r ∈ rows, p.header = r.topic ∧ p.footer = r.topic := by
  constructor
  · simp [generate, hcols.1, hcols.2, processRows_ok cfg hs rows hrows []]
  · intro p hp
    obtain ⟨r, hr, hpr⟩ := expectedPages_mem cfg rows p hp
    exact ⟨r, hr, by rw [hpr]; exact rfl, by rw [hpr]; exact rfl⟩

theorem c5_row_order_witness :
    generate (.table ["Topic", "Pages"]
          [⟨"Math", .intVal 2⟩, ⟨"History", .intVal 1⟩]) ⟨10, 24⟩
        "output.pdf" true
      = .wrote [mkPage ⟨10, 24⟩ "Math", mkPage ⟨10, 24⟩ "Math",
          mkPage ⟨10, 24⟩ "History"] "PDF generated successfully: output.pdf"
    ∧ (mkPage ⟨10, 24⟩ "Math").header = "Math"
    ∧ (mkPage ⟨10, 24⟩ "Math").footer = "Math"
    ∧ (mkPage ⟨10, 24⟩ "History").header = "History"
    ∧ (mkPage ⟨10, 24⟩ "History").footer = "History" := by
  have h := (c5_row_order ["Topic", "Pages"]
    [⟨"Math", .intVal 2⟩, ⟨"History", .intVal 1⟩] ⟨10, 24⟩ "output.pdf"
    (by decide) (by decide) (by decide)).1
  exact ⟨by rw [h]; decide, rfl, rfl, rfl, rfl⟩

/-- C6: a nonexistent input path makes the run print an error and call
`sys.exit(1)` before any page is produced or any output write is attempted,
for every configuration and regardless of whether the output path would be
writable. -/
theorem c6_missing_input_exits (cfg : Config) (path : String) (w : Bool) :
    generate .notFound cfg path w = .exited "Error: CSV file not found" := rfl

/-- C7: an input file that parses but lacks the `Topic` or the `Pages`
column makes the run print an error and call `sys.exit(1)` before any page
is rendered and before any output write is attempted. -/
theorem c7_missing_columns_exits (cols : List String) (rows : List Row)
    (cfg : Config) (path : String) (w : Bool)
    (h : "Topic" ∉ cols ∨ "Pages" ∉ cols) :
    generate (.table cols rows) cfg path w
      = .exited "Error: CSV must contain columns: Topic, Pages" := by
  have hnot : ¬("Topic" ∈ cols ∧ "Pages" ∈ cols) := by tauto
  simp [generate, hnot]

theorem c7_missing_columns_exits_witness :
    generate (.table ["Topic", "Extra"] [⟨"A", .intVal 3⟩]) ⟨10, 24⟩
        "out.pdf" true
      = .exited "Error: CSV must contain columns: Topic, Pages" :=
  c7_missing_columns_exits _ _ _ _ _ (by decide)

/-- C8 counterexample: a failing output write is not caught anywhere — with
a valid one-row input and an unwritable output path, the run ends in an
uncaught exception propagating past `main` (there is no top-level handler in
the program), not in a converted one-line message with a clean exit. -/
theorem c8_counterexample :
    generate (.table ["Topic", "Pages"] [⟨"A", .intVal 1⟩]) ⟨10, 24⟩
        "out.pdf" false
      = .raised "IOError: cannot write output file" 1 := by decide

/-- C8 amended: only the three explicitly guarded conditions (missing input
file, CSV parse failure, missing required columns) are converted to a
one-line message followed by `sys.exit(1)`; a failing output write (like a
`Pages` coercion failure or a zero spacing) is re-raised past `main` as an
uncaught exception, because no top-level `try/except` exists. -/
theorem c8_error_propagation (cfg : Config) (path : String) (w : Bool)
    (e : String) (cols : List String) (rows : List Row)
    (hcols : "Topic" ∈ cols ∧ "Pages" ∈ cols)
    (hrows : ∀ r ∈ rows, isIntCell r.pagesCell = true)
    (hs : cfg.line_spacing ≠ 0) :
    generate .notFound cfg path w = .exited "Error: CSV file not found"
    ∧ generate (.parseError e) cfg path w
        = .exited ("Error reading CSV: " ++ e)
    ∧ generate (.table cols rows) cfg path false
        = .raised "IOError: cannot write output file"
            (expectedPages cfg rows).length := by
  refine ⟨rfl, rfl, ?_⟩
  simp [generate, hcols.1, hcols.2, processRows_ok cfg hs rows hrows []]

theorem c8_error_propagation_witness :
    generate .notFound ⟨10, 24⟩ "out.pdf" true
        = .exited "Error: CSV file not found"
    ∧ generate (.parseError "bad line") ⟨10, 24⟩ "out.pdf" true
        = .exited ("Error reading CSV: " ++ "bad line")
    ∧ generate (.table ["Topic", "Pages"] [⟨"A", .intVal 2⟩]) ⟨10, 24⟩
          "out.pdf" false
        = .raised "IOError: cannot write output file"
            (expectedPages ⟨10, 24⟩ [⟨"A", .intVal 2⟩]).length :=
  c8_error_propagation ⟨10, 24⟩ "out.pdf" true "bad line" _ _
    (by decide) (by decide) (by decide)

/-- C9: an input with both required columns but zero data rows is not an
error: the row loop runs zero times, the output write still happens, and the
run reports success with an empty (zero-page) document. -/
theorem c9_empty_rows_success (cols : List String) (cfg : Config)
    (path : String) (hcols : "Topic" ∈ cols ∧ "Pages" ∈ cols) :
    generate (.table cols []) cfg path true
      = .wrote [] ("PDF generated successfully: " ++ path) := by
  simp [generate, hcols.1, hcols.2, processRows]

theorem c9_empty_rows_success_witness :
    generate (.table ["Topic", "Pages"] []) ⟨10, 24⟩ "out.pdf" true
      = .wrote [] ("PDF generated successfully: " ++ "out.pdf") :=
  c9_empty_rows_success _ _ _ (by decide)

/-- C10: the run is deterministic — two runs given the same parsed input,
the same line spacing and font size, the same output path, and the same
filesystem behaviour produce the same result, page for page (same header
text, same rule line positions, same footer text). -/
theorem c10_deterministic (i₁ i₂ : CsvInput) (k₁ k₂ : Config)
    (p₁ p₂ : String) (w₁ w₂ : Bool)
    (hi : i₁ = i₂) (hk : k₁ = k₂) (hp : p₁ = p₂) (hw : w₁ = w₂) :
    generate i₁ k₁ p₁ w₁ = generate i₂ k₂ p₂ w₂ := by
  rw [hi, hk, hp, hw]

theorem c10_deterministic_witness :
    generate (.table ["Topic", "Pages"] [⟨"Math", .intVal 2⟩]) ⟨10, 24⟩
        "out.pdf" true
      = generate (.table ["Topic", "Pages"] [⟨"Math", .intVal 2⟩]) ⟨10, 24⟩
        "out.pdf" true :=
  c10_deterministic _ _ _ _ _ _ _ _ rfl rfl rfl rfl
